import Mathlib

/-!
Shallow embedding of the user-account service (src/src/models/user.py and
src/src/routes/user.py): the User record, the in-memory account store, and
the six request handlers (register, login, get_profile, use_credit,
add_credits, check_credits, upgrade_plan), followed by theorems checking
the specification's claims against these definitions.

Timestamps are abstracted as natural numbers (`datetime.utcnow()` becomes a
`now : Nat` parameter of each handler that reads the clock), and the
password-hash primitive (werkzeug's generate/check pair, an external
one-way hash+verify capability) is modelled by a tagging function together
with the equality check the verify capability provides.
-/

namespace AccountService

/-- Model of werkzeug's password hashing capability (external to the repo):
an injective digest function. Only the hash/verify round-trip contract is
used by the service code. -/
def generate_password_hash (password : String) : String :=
  "pbkdf2:" ++ password

/-- Model of werkzeug's `check_password_hash`: verification succeeds exactly
when the stored digest was produced from the supplied password. -/
def check_password_hash (hash password : String) : Bool :=
  hash == generate_password_hash password

/-- Abstract model of `datetime.isoformat()` on the abstracted clock. -/
def isoformat (t : Nat) : String :=
  toString t

/-- Python `str.strip()`: drop leading and trailing whitespace. Written
over the character list so the kernel can evaluate it. -/
def pyStrip (s : String) : String :=
  String.mk (((s.data.dropWhile Char.isWhitespace).reverse.dropWhile
    Char.isWhitespace).reverse)

/-- Python `str.lower()` (ASCII case folding), written over the character
list so the kernel can evaluate it. -/
def pyLower (s : String) : String :=
  String.mk (s.data.map Char.toLower)

/-- The persisted User entity (src/src/models/user.py, class User).
`created_at` and `last_login` are nullable timestamps. -/
structure User where
  id : Nat
  name : String
  email : String
  password_hash : String
  credits : Int
  plan_type : String
  created_at : Option Nat
  last_login : Option Nat
  is_active : Bool
deriving DecidableEq, Repr

/-- `User.set_password`: store the digest of the given password. -/
def User.set_password (u : User) (password : String) : User :=
  { u with password_hash := generate_password_hash password }

/-- `User.check_password`: verify a password against the stored digest. -/
def User.check_password (u : User) (password : String) : Bool :=
  check_password_hash u.password_hash password

/-- `User.use_credit`: if credits > 0 decrement and return True, else
return False. The Python method mutates `self`; here it returns the flag
together with the (possibly updated) record. -/
def User.use_credit (u : User) : Bool × User :=
  if u.credits > 0 then (true, { u with credits := u.credits - 1 })
  else (false, u)

/-- `User.add_credits`: credits += amount. -/
def User.add_credits (u : User) (amount : Int) : User :=
  { u with credits := u.credits + amount }

/-- JSON scalar values appearing in the public user view. -/
inductive JVal where
  | s : String → JVal
  | i : Int → JVal
  | b : Bool → JVal
  | null : JVal
deriving DecidableEq, Repr

/-- `User.to_dict`: the public view returned to callers. -/
def User.to_dict (u : User) : List (String × JVal) :=
  [ ("id", JVal.i (u.id : Int)),
    ("name", JVal.s u.name),
    ("email", JVal.s u.email),
    ("credits", JVal.i u.credits),
    ("plan_type", JVal.s u.plan_type),
    ("created_at", match u.created_at with
      | some t => JVal.s (isoformat t)
      | none => JVal.null),
    ("last_login", match u.last_login with
      | some t => JVal.s (isoformat t)
      | none => JVal.null),
    ("is_active", JVal.b u.is_active) ]

/-- The account store: the users table (SQLAlchemy session/DB) plus the
autoincrement counter for primary keys. -/
structure Store where
  users : List User
  nextId : Nat
deriving DecidableEq, Repr

/-- `User.query.filter_by(email=email).first()`. -/
def Store.findByEmail (st : Store) (email : String) : Option User :=
  st.users.find? (fun u => u.email == email)

/-- `User.query.get(user_id)`. -/
def Store.getById (st : Store) (uid : Nat) : Option User :=
  st.users.find? (fun u => u.id == uid)

/-- Replace the first record carrying the given user's id (the committed
in-place mutation of a loaded row). -/
def replaceById (u : User) : List User → List User
  | [] => []
  | v :: rest => if v.id == u.id then u :: rest else v :: replaceById u rest

/-- `db.session.commit()` after mutating a loaded row. -/
def Store.saveUser (st : Store) (u : User) : Store :=
  { st with users := replaceById u st.users }

def initialStore : Store :=
  { users := [], nextId := 1 }

/-- `validate_email`'s character class `[a-zA-Z0-9._%+-]` (local part). -/
def isLocalChar (c : Char) : Bool :=
  c.isAlpha || c.isDigit || c == '.' || c == '_' || c == '%' || c == '+' || c == '-'

/-- `validate_email`'s character class `[a-zA-Z0-9.-]` (domain part). -/
def isDomainChar (c : Char) : Bool :=
  c.isAlpha || c.isDigit || c == '.' || c == '-'

/-- Match of `[a-zA-Z0-9.-]+\.[a-zA-Z]{2,}` against an entire character
list: some split at a dot has a non-empty all-domain-chars prefix and an
all-alphabetic suffix of length at least 2. -/
def matchDomain (cs : List Char) : Bool :=
  (List.range cs.length).any (fun k =>
    decide (0 < k) && cs.getD k ' ' == '.' &&
    (cs.take k).all isDomainChar &&
    decide (2 ≤ (cs.drop (k + 1)).length) && (cs.drop (k + 1)).all Char.isAlpha)

/-- `validate_email`: anchored match of
`^[a-zA-Z0-9._%+-]+@[a-zA-Z0-9.-]+\.[a-zA-Z]{2,}$`. None of the three
character classes contains `@`, so a match splits the string at an `@`
with a non-empty local part before it and a domain match after it. -/
def validate_email (email : String) : Bool :=
  let cs := email.toList
  (List.range cs.length).any (fun k =>
    decide (0 < k) && cs.getD k ' ' == '@' &&
    (cs.take k).all isLocalChar &&
    matchDomain (cs.drop (k + 1)))

/-- `validate_password`: length at least 6, with the message returned. -/
def validate_password (password : String) : Bool × String :=
  if password.length < 6 then
    (false, "Password must be at least 6 characters long")
  else
    (true, "Password is valid")

/-- Python falsiness of `data.get(field)` for a string field: the key is
absent or the value is the empty string. -/
def falsy : Option String → Bool
  | none => true
  | some s => s == ""

/-- Request body of POST /register. -/
structure RegisterReq where
  name : Option String
  email : Option String
  password : Option String
deriving DecidableEq, Repr

/-- Request body of POST /login. -/
structure LoginReq where
  email : Option String
  password : Option String
deriving DecidableEq, Repr

/-- Request body of POST /add-credits/<id>; `data.get('amount', 0)`. -/
structure AddCreditsReq where
  amount : Option Int
deriving DecidableEq, Repr

/-- Request body of POST /upgrade-plan/<id>; `data.get('plan_type', '')`. -/
structure UpgradePlanReq where
  plan_type : Option String
deriving DecidableEq, Repr

/-- The JSON response bodies the handlers produce. -/
inductive Body where
  | err : String → Body
  | msgUser : String → List (String × JVal) → Body
  | userOnly : List (String × JVal) → Body
  | msgRemaining : String → Int → Body
  | msgTotal : String → Int → Body
  | creditsInfo : Nat → Int → String → Body
deriving DecidableEq, Repr

/-- A handler's outcome: HTTP status, JSON body, and the store after the
request (commits applied; on error paths the store is unchanged, matching
rollback of the uncommitted session). -/
structure HResult where
  status : Nat
  body : Body
  store : Store
deriving DecidableEq, Repr

/-- POST /register (src/src/routes/user.py, `register`). -/
def register (now : Nat) (req : RegisterReq) (st : Store) : HResult :=
  if falsy req.name then ⟨400, Body.err "name is required", st⟩
  else if falsy req.email then ⟨400, Body.err "email is required", st⟩
  else if falsy req.password then ⟨400, Body.err "password is required", st⟩
  else
    let name := pyStrip (req.name.getD "")
    let email := pyLower (pyStrip (req.email.getD ""))
    let password := req.password.getD ""
    if !validate_email email then ⟨400, Body.err "Invalid email format", st⟩
    else if !(validate_password password).1 then
      ⟨400, Body.err (validate_password password).2, st⟩
    else
      match st.findByEmail email with
      | some _ => ⟨409, Body.err "Email already registered", st⟩
      | none =>
        let user : User :=
          { id := st.nextId, name := name, email := email,
            password_hash := generate_password_hash password,
            credits := 100, plan_type := "free",
            created_at := some now, last_login := none, is_active := true }
        ⟨201, Body.msgUser "Account created successfully" user.to_dict,
          { users := st.users ++ [user], nextId := st.nextId + 1 }⟩

/-- POST /login (src/src/routes/user.py, `login`). -/
def login (now : Nat) (req : LoginReq) (st : Store) : HResult :=
  if falsy req.email || falsy req.password then
    ⟨400, Body.err "Email and password are required", st⟩
  else
    let email := pyLower (pyStrip (req.email.getD ""))
    let password := req.password.getD ""
    match st.findByEmail email with
    | none => ⟨401, Body.err "Invalid email or password", st⟩
    | some user =>
      if !user.check_password password then
        ⟨401, Body.err "Invalid email or password", st⟩
      else if !user.is_active then
        ⟨401, Body.err "Account is deactivated", st⟩
      else
        let user2 := { user with last_login := some now }
        ⟨200, Body.msgUser "Login successful" user2.to_dict, st.saveUser user2⟩

/-- GET /profile/<id> (src/src/routes/user.py, `get_profile`). -/
def get_profile (uid : Nat) (st : Store) : HResult :=
  match st.getById uid with
  | none => ⟨404, Body.err "User not found", st⟩
  | some user => ⟨200, Body.userOnly user.to_dict, st⟩

/-- POST /use-credit/<id> (src/src/routes/user.py, `use_credit`). -/
def use_credit (uid : Nat) (st : Store) : HResult :=
  match st.getById uid with
  | none => ⟨404, Body.err "User not found", st⟩
  | some user =>
    let r := user.use_credit
    if r.1 then
      ⟨200, Body.msgRemaining "Credit used successfully" r.2.credits,
        st.saveUser r.2⟩
    else
      ⟨400, Body.err "No credits remaining", st⟩

/-- POST /add-credits/<id> (src/src/routes/user.py, `add_credits`). -/
def add_credits (uid : Nat) (req : AddCreditsReq) (st : Store) : HResult :=
  let amount := req.amount.getD 0
  if amount ≤ 0 then ⟨400, Body.err "Invalid credit amount", st⟩
  else
    match st.getById uid with
    | none => ⟨404, Body.err "User not found", st⟩
    | some user =>
      let user2 := user.add_credits amount
      ⟨200, Body.msgTotal (toString amount ++ " credits added successfully")
          user2.credits, st.saveUser user2⟩

/-- GET /check-credits/<id> (src/src/routes/user.py, `check_credits`). -/
def check_credits (uid : Nat) (st : Store) : HResult :=
  match st.getById uid with
  | none => ⟨404, Body.err "User not found", st⟩
  | some user => ⟨200, Body.creditsInfo user.id user.credits user.plan_type, st⟩

/-- POST /upgrade-plan/<id> (src/src/routes/user.py, `upgrade_plan`). -/
def upgrade_plan (uid : Nat) (req : UpgradePlanReq) (st : Store) : HResult :=
  let new_plan := pyLower (req.plan_type.getD "")
  if !(["free", "pro", "premium"].contains new_plan) then
    ⟨400, Body.err "Invalid plan type", st⟩
  else
    match st.getById uid with
    | none => ⟨404, Body.err "User not found", st⟩
    | some user =>
      let user1 := { user with plan_type := new_plan }
      let user2 :=
        if new_plan == "pro" then user1.add_credits 500
        else if new_plan == "premium" then user1.add_credits 1000
        else user1
      ⟨200, Body.msgUser ("Plan upgraded to " ++ new_plan) user2.to_dict,
        st.saveUser user2⟩

/-- One request against the service, abstracting over the handler. -/
inductive Op where
  | opRegister : RegisterReq → Op
  | opLogin : LoginReq → Op
  | opProfile : Nat → Op
  | opUseCredit : Nat → Op
  | opAddCredits : Nat → AddCreditsReq → Op
  | opCheckCredits : Nat → Op
  | opUpgradePlan : Nat → UpgradePlanReq → Op
deriving DecidableEq, Repr

/-- Dispatch one request to its handler. -/
def handle (now : Nat) (op : Op) (st : Store) : HResult :=
  match op with
  | Op.opRegister req => register now req st
  | Op.opLogin req => login now req st
  | Op.opProfile uid => get_profile uid st
  | Op.opUseCredit uid => use_credit uid st
  | Op.opAddCredits uid req => add_credits uid req st
  | Op.opCheckCredits uid => check_credits uid st
  | Op.opUpgradePlan uid req => upgrade_plan uid req st

/-- The store after handling one request. -/
def applyOp (now : Nat) (op : Op) (st : Store) : Store :=
  (handle now op st).store

/-- Store states reachable from the empty store by request handling. -/
inductive Reachable : Store → Prop where
  | init : Reachable initialStore
  | step : ∀ (now : Nat) (op : Op) (st : Store),
      Reachable st → Reachable (applyOp now op st)

/-- Every persisted credits balance is non-negative. -/
def creditsNonneg (st : Store) : Prop :=
  ∀ u ∈ st.users, 0 ≤ u.credits

/-- The user view carried by a response body, when it has one. -/
def Body.userView : Body → Option (List (String × JVal))
  | Body.msgUser _ d => some d
  | Body.userOnly d => some d
  | _ => none

/-- The record the register handler inserts on its success path,
abbreviated for reuse in statements (it is exactly the literal built in
`register`). -/
def newUser (now : Nat) (req : RegisterReq) (st : Store) : User :=
  { id := st.nextId, name := pyStrip (req.name.getD ""),
    email := pyLower (pyStrip (req.email.getD "")),
    password_hash := generate_password_hash (req.password.getD ""),
    credits := 100, plan_type := "free",
    created_at := some now, last_login := none, is_active := true }

/-- Demonstration fixture: a registered user with one credit left. -/
def annUser : User :=
  { id := 1, name := "Ann", email := "ann@test.com",
    password_hash := generate_password_hash "secret1",
    credits := 1, plan_type := "free",
    created_at := some 0, last_login := none, is_active := true }

/-- Demonstration fixture: a store holding `annUser`. -/
def annStore : Store :=
  { users := [annUser], nextId := 2 }

/-- Demonstration fixture: a deactivated user with a known password. -/
def deacUser : User :=
  { id := 3, name := "Dee", email := "dee@test.com",
    password_hash := generate_password_hash "secret1",
    credits := 5, plan_type := "free",
    created_at := some 0, last_login := none, is_active := false }

/-- Demonstration fixture: a store holding `deacUser`. -/
def deacStore : Store :=
  { users := [deacUser], nextId := 4 }

/-- C1: if `credits > 0`, the use-credit handler decrements by one, commits
the decremented record and reports the remaining count; if `credits = 0`
it answers 400 and the store is untouched. -/
theorem use_credit_spec (uid : Nat) (st : Store) (u : User)
    (hfind : st.getById uid = some u) :
    (0 < u.credits →
      use_credit uid st =
        ⟨200, Body.msgRemaining "Credit used successfully" (u.credits - 1),
          st.saveUser { u with credits := u.credits - 1 }⟩)
    ∧ (u.credits = 0 →
      use_credit uid st = ⟨400, Body.err "No credits remaining", st⟩) := by
  constructor
  · intro h
    simp [use_credit, hfind, User.use_credit, h]
  · intro h
    simp [use_credit, hfind, User.use_credit, h]

/-- Closed instance of `use_credit_spec` on the demonstration store. -/
theorem use_credit_spec_witness :
    use_credit 1 annStore =
      ⟨200, Body.msgRemaining "Credit used successfully" (annUser.credits - 1),
        annStore.saveUser { annUser with credits := annUser.credits - 1 }⟩ :=
  (use_credit_spec 1 annStore annUser (by decide)).1 (by decide)

/-- C5: add-credits answers `Invalid credit amount` exactly when the
amount is non-positive (store untouched); a positive amount is added to
the balance, committed, and the new total reported. -/
theorem add_credits_spec (uid : Nat) (a : Int) (st : Store) (u : User)
    (hfind : st.getById uid = some u) :
    ((add_credits uid ⟨some a⟩ st).body = Body.err "Invalid credit amount" ↔ a ≤ 0)
    ∧ (a ≤ 0 →
        add_credits uid ⟨some a⟩ st = ⟨400, Body.err "Invalid credit amount", st⟩)
    ∧ (0 < a →
        add_credits uid ⟨some a⟩ st =
          ⟨200, Body.msgTotal (toString a ++ " credits added successfully")
              (u.credits + a), st.saveUser (u.add_credits a)⟩) := by
  by_cases h : a ≤ 0
  · refine ⟨⟨fun _ => h, fun _ => ?_⟩, fun _ => ?_, fun hpos => absurd hpos (by omega)⟩
    · simp [add_credits, h]
    · simp [add_credits, h]
  · refine ⟨⟨fun hbody => ?_, fun ha => absurd ha h⟩, fun ha => absurd ha h, fun _ => ?_⟩
    · simp [add_credits, h, hfind, User.add_credits] at hbody
    · simp [add_credits, h, hfind, User.add_credits]

/-- Closed instance of `add_credits_spec` on the demonstration store. -/
theorem add_credits_spec_witness :
    add_credits 1 ⟨some 50⟩ annStore =
      ⟨200, Body.msgTotal (toString (50 : Int) ++ " credits added successfully")
          (annUser.credits + 50), annStore.saveUser (annUser.add_credits 50)⟩ :=
  (add_credits_spec 1 50 annStore annUser (by decide)).2.2 (by decide)

/-- C4: upgrade-plan with a value whose lowercasing is free/pro/premium
sets that plan and adds 0/500/1000 credits respectively, whatever the
prior plan; any other value answers `Invalid plan type` with the store
untouched. -/
theorem upgrade_plan_spec (uid : Nat) (req : UpgradePlanReq) (st : Store) (u : User)
    (hfind : st.getById uid = some u) :
    (pyLower (req.plan_type.getD "") = "pro" →
      upgrade_plan uid req st =
        ⟨200, Body.msgUser "Plan upgraded to pro"
            (User.to_dict { u with plan_type := "pro", credits := u.credits + 500 }),
          st.saveUser { u with plan_type := "pro", credits := u.credits + 500 }⟩)
    ∧ (pyLower (req.plan_type.getD "") = "premium" →
      upgrade_plan uid req st =
        ⟨200, Body.msgUser "Plan upgraded to premium"
            (User.to_dict { u with plan_type := "premium", credits := u.credits + 1000 }),
          st.saveUser { u with plan_type := "premium", credits := u.credits + 1000 }⟩)
    ∧ (pyLower (req.plan_type.getD "") = "free" →
      upgrade_plan uid req st =
        ⟨200, Body.msgUser "Plan upgraded to free"
            (User.to_dict { u with plan_type := "free" }),
          st.saveUser { u with plan_type := "free" }⟩)
    ∧ (pyLower (req.plan_type.getD "") ∉ (["free", "pro", "premium"] : List String) →
      upgrade_plan uid req st = ⟨400, Body.err "Invalid plan type", st⟩) := by
  refine ⟨fun h => ?_, fun h => ?_, fun h => ?_, fun h => ?_⟩
  · simp [upgrade_plan, h, hfind, User.add_credits]
  · simp [upgrade_plan, h, hfind, User.add_credits]
  · simp [upgrade_plan, h, hfind, User.add_credits]
  · have hc : (["free", "pro", "premium"] : List String).contains
        (pyLower (req.plan_type.getD "")) = false := by
      cases hcc : (["free", "pro", "premium"] : List String).contains
          (pyLower (req.plan_type.getD "")) with
      | false => rfl
      | true =>
        simp at hcc h
        tauto
    simp only [upgrade_plan]
    rw [hc]
    rfl

/-- Closed instance of `upgrade_plan_spec` on the demonstration store. -/
theorem upgrade_plan_spec_witness :
    upgrade_plan 1 ⟨some "PRO"⟩ annStore =
      ⟨200, Body.msgUser "Plan upgraded to pro"
          (User.to_dict { annUser with plan_type := "pro", credits := annUser.credits + 500 }),
        annStore.saveUser { annUser with plan_type := "pro", credits := annUser.credits + 500 }⟩ :=
  (upgrade_plan_spec 1 ⟨some "PRO"⟩ annStore annUser (by decide)).1 (by decide)

/-- C10: a login that does not answer 200 leaves the store exactly as it
was; a 200 answer commits precisely the found user with `last_login` set
to the current time. -/
theorem login_frame (now : Nat) (req : LoginReq) (st : Store) :
    ((login now req st).status ≠ 200 → (login now req st).store = st)
    ∧ ((login now req st).status = 200 →
        ∃ u, st.findByEmail (pyLower (pyStrip (req.email.getD ""))) = some u ∧
          u.is_active = true ∧
          (login now req st).store = st.saveUser { u with last_login := some now } ∧
          (login now req st).body =
            Body.msgUser "Login successful"
              (User.to_dict { u with last_login := some now })) := by
  unfold login
  dsimp only
  split
  · exact ⟨fun _ => rfl, fun h => by simp at h⟩
  · split
    · exact ⟨fun _ => rfl, fun h => by simp at h⟩
    · next u heq =>
      split
      · exact ⟨fun _ => rfl, fun h => by simp at h⟩
      · split
        · exact ⟨fun _ => rfl, fun h => by simp at h⟩
        · next h1 h2 =>
          refine ⟨fun hne => absurd rfl hne, fun _ => ⟨u, heq, ?_, rfl, rfl⟩⟩
          simpa using h2

/-- Closed instance of `login_frame`: a wrong-password login leaves the
demonstration store unchanged. -/
theorem login_frame_witness :
    (login 9 ⟨some "ann@test.com", some "wrongpw"⟩ annStore).store = annStore :=
  (login_frame 9 ⟨some "ann@test.com", some "wrongpw"⟩ annStore).1 (by decide)

/-- A member of the list after first-match replacement is the replacement
or was already present. -/
theorem mem_replaceById {u w : User} {l : List User} (h : u ∈ replaceById w l) :
    u = w ∨ u ∈ l := by
  induction l with
  | nil => simp [replaceById] at h
  | cons v rest ih =>
    simp only [replaceById] at h
    split at h
    · rcases List.mem_cons.mp h with h | h
      · exact Or.inl h
      · exact Or.inr (List.mem_cons_of_mem v h)
    · rcases List.mem_cons.mp h with h | h
      · subst h
        exact Or.inr (List.mem_cons_self _ _)
      · rcases ih h with h | h
        · exact Or.inl h
        · exact Or.inr (List.mem_cons_of_mem v h)

/-- Committing a record with a non-negative balance preserves the
store-wide non-negativity invariant. -/
theorem creditsNonneg_saveUser {st : Store} {w : User}
    (h : creditsNonneg st) (hw : 0 ≤ w.credits) :
    creditsNonneg (st.saveUser w) := by
  intro u hu
  simp only [Store.saveUser] at hu
  rcases mem_replaceById hu with rfl | hu2
  · exact hw
  · exact h u hu2

/-- The register handler preserves balance non-negativity. -/
theorem register_preserves (now : Nat) (req : RegisterReq) (st : Store)
    (h : creditsNonneg st) : creditsNonneg (register now req st).store := by
  unfold register
  dsimp only
  repeat' split
  any_goals exact h
  intro u hu
  simp only [List.mem_append, List.mem_singleton] at hu
  rcases hu with hu | rfl
  · exact h u hu
  · show (0 : Int) ≤ 100
    decide

/-- The login handler preserves balance non-negativity. -/
theorem login_preserves (now : Nat) (req : LoginReq) (st : Store)
    (h : creditsNonneg st) : creditsNonneg (login now req st).store := by
  unfold login
  dsimp only
  split
  · exact h
  · split
    · exact h
    · next u heq =>
      split
      · exact h
      · split
        · exact h
        · refine creditsNonneg_saveUser h ?_
          exact h u (List.mem_of_find?_eq_some heq)

/-- The profile handler does not touch the store. -/
theorem get_profile_preserves (uid : Nat) (st : Store)
    (h : creditsNonneg st) : creditsNonneg (get_profile uid st).store := by
  unfold get_profile
  split <;> exact h

/-- The use-credit handler preserves balance non-negativity. -/
theorem use_credit_preserves (uid : Nat) (st : Store)
    (h : creditsNonneg st) : creditsNonneg (use_credit uid st).store := by
  unfold use_credit
  dsimp only
  split
  · exact h
  · next u heq =>
    split
    · refine creditsNonneg_saveUser h ?_
      have hu : 0 ≤ u.credits := h u (List.mem_of_find?_eq_some heq)
      unfold User.use_credit
      split
      · next hpos =>
        show 0 ≤ u.credits - 1
        omega
      · exact hu
    · exact h

/-- The add-credits handler preserves balance non-negativity. -/
theorem add_credits_preserves (uid : Nat) (req : AddCreditsReq) (st : Store)
    (h : creditsNonneg st) : creditsNonneg (add_credits uid req st).store := by
  unfold add_credits
  dsimp only
  split
  · exact h
  · next hamt =>
    split
    · exact h
    · next u heq =>
      refine creditsNonneg_saveUser h ?_
      have hu : 0 ≤ u.credits := h u (List.mem_of_find?_eq_some heq)
      show 0 ≤ u.credits + req.amount.getD 0
      omega

/-- The check-credits handler does not touch the store. -/
theorem check_credits_preserves (uid : Nat) (st : Store)
    (h : creditsNonneg st) : creditsNonneg (check_credits uid st).store := by
  unfold check_credits
  split <;> exact h

/-- The upgrade-plan handler preserves balance non-negativity. -/
theorem upgrade_plan_preserves (uid : Nat) (req : UpgradePlanReq) (st : Store)
    (h : creditsNonneg st) : creditsNonneg (upgrade_plan uid req st).store := by
  unfold upgrade_plan
  dsimp only
  split
  · exact h
  · split
    · exact h
    · next u heq =>
      refine creditsNonneg_saveUser h ?_
      have hu : 0 ≤ u.credits := h u (List.mem_of_find?_eq_some heq)
      unfold User.add_credits
      dsimp only
      split
      · show 0 ≤ u.credits + 500
        omega
      · split
        · show 0 ≤ u.credits + 1000
          omega
        · exact hu

/-- Every handler preserves balance non-negativity. -/
theorem handle_preserves (now : Nat) (op : Op) (st : Store)
    (h : creditsNonneg st) : creditsNonneg (handle now op st).store := by
  cases op with
  | opRegister req => exact register_preserves now req st h
  | opLogin req => exact login_preserves now req st h
  | opProfile uid => exact get_profile_preserves uid st h
  | opUseCredit uid => exact use_credit_preserves uid st h
  | opAddCredits uid req => exact add_credits_preserves uid req st h
  | opCheckCredits uid => exact check_credits_preserves uid st h
  | opUpgradePlan uid req => exact upgrade_plan_preserves uid req st h

/-- Every reachable store satisfies the non-negativity invariant. -/
theorem reachable_creditsNonneg {st : Store} (h : Reachable st) :
    creditsNonneg st := by
  induction h with
  | init => intro u hu; simp [initialStore] at hu
  | step now op st2 hr ih => exact handle_preserves now op st2 ih

/-- C7: from any reachable store, applying any of the operations leaves
every user's credits balance non-negative. -/
theorem credits_never_negative (st : Store) (h : Reachable st)
    (now : Nat) (op : Op) :
    ∀ u ∈ (applyOp now op st).users, 0 ≤ u.credits :=
  handle_preserves now op st (reachable_creditsNonneg h)

/-- Closed instance of `credits_never_negative` after registering a user
into the empty store. -/
theorem credits_never_negative_witness :
    0 ≤ (User.mk 1 "Ann" "ann@test.com" (generate_password_hash "secret1")
      100 "free" (some 0) none true).credits :=
  credits_never_negative initialStore Reachable.init 0
    (Op.opRegister ⟨some "Ann", some "ann@test.com", some "secret1"⟩)
    (User.mk 1 "Ann" "ann@test.com" (generate_password_hash "secret1")
      100 "free" (some 0) none true) (by decide)

/-- The public view has exactly the eight documented keys. -/
theorem to_dict_keys (u : User) :
    (User.to_dict u).map Prod.fst =
      ["id", "name", "email", "credits", "plan_type", "created_at",
        "last_login", "is_active"] := rfl

/-- Every user view any handler emits is `to_dict` of some user. -/
theorem handle_userView_to_dict (now : Nat) (op : Op) (st : Store)
    (d : List (String × JVal)) (h : (handle now op st).body.userView = some d) :
    ∃ u : User, d = User.to_dict u := by
  cases op with
  | opRegister req =>
    simp only [handle] at h
    unfold register at h
    dsimp only at h
    repeat' split at h
    all_goals simp only [Body.userView, Option.some.injEq] at h
    all_goals first
    | exact Option.noConfusion h
    | exact ⟨_, h.symm⟩
  | opLogin req =>
    simp only [handle] at h
    unfold login at h
    dsimp only at h
    repeat' split at h
    all_goals simp only [Body.userView, Option.some.injEq] at h
    all_goals first
    | exact Option.noConfusion h
    | exact ⟨_, h.symm⟩
  | opProfile uid =>
    simp only [handle] at h
    unfold get_profile at h
    repeat' split at h
    all_goals simp only [Body.userView, Option.some.injEq] at h
    all_goals first
    | exact Option.noConfusion h
    | exact ⟨_, h.symm⟩
  | opUseCredit uid =>
    simp only [handle] at h
    unfold use_credit at h
    dsimp only at h
    repeat' split at h
    all_goals simp only [Body.userView] at h
    all_goals exact Option.noConfusion h
  | opAddCredits uid req =>
    simp only [handle] at h
    unfold add_credits at h
    dsimp only at h
    repeat' split at h
    all_goals simp only [Body.userView] at h
    all_goals exact Option.noConfusion h
  | opCheckCredits uid =>
    simp only [handle] at h
    unfold check_credits at h
    repeat' split at h
    all_goals simp only [Body.userView] at h
    all_goals exact Option.noConfusion h
  | opUpgradePlan uid req =>
    simp only [handle] at h
    unfold upgrade_plan at h
    dsimp only at h
    repeat' split at h
    all_goals simp only [Body.userView, Option.some.injEq] at h
    all_goals first
    | exact Option.noConfusion h
    | exact ⟨_, h.symm⟩

/-- C8: whenever any operation's response carries a user view, that view
has exactly the keys id, name, email, credits, plan_type, created_at,
last_login, is_active — and never a password_hash key. -/
theorem public_view_fields (now : Nat) (op : Op) (st : Store)
    (d : List (String × JVal)) (h : (handle now op st).body.userView = some d) :
    d.map Prod.fst =
      ["id", "name", "email", "credits", "plan_type", "created_at",
        "last_login", "is_active"]
    ∧ "password_hash" ∉ d.map Prod.fst := by
  obtain ⟨u, rfl⟩ := handle_userView_to_dict now op st d h
  refine ⟨to_dict_keys u, ?_⟩
  rw [to_dict_keys]
  decide

/-- Closed instance of `public_view_fields` on a profile request. -/
theorem public_view_fields_witness :
    (User.to_dict annUser).map Prod.fst =
      ["id", "name", "email", "credits", "plan_type", "created_at",
        "last_login", "is_active"]
    ∧ "password_hash" ∉ (User.to_dict annUser).map Prod.fst :=
  public_view_fields 0 (Op.opProfile 1) annStore (User.to_dict annUser)
    (by decide)

/-- Register's success path in closed form: all validations passed and the
email is unused, so the handler answers 201 and appends `newUser`. -/
theorem register_success_eq (now : Nat) (req : RegisterReq) (st : Store)
    (hn : falsy req.name = false) (he : falsy req.email = false)
    (hp : falsy req.password = false)
    (hv : validate_email (pyLower (pyStrip (req.email.getD ""))) = true)
    (hlen : ¬ (req.password.getD "").length < 6)
    (hdup : st.findByEmail (pyLower (pyStrip (req.email.getD ""))) = none) :
    register now req st =
      ⟨201, Body.msgUser "Account created successfully"
          (newUser now req st).to_dict,
        ⟨st.users ++ [newUser now req st], st.nextId + 1⟩⟩ := by
  unfold register
  simp [hn, he, hp, hv, validate_password, hlen, hdup, newUser]

/-- C2: a valid registration (fields present, email well-formed, password
long enough, email unused) answers 201 with the inserted user, whose
record has credits 100, the free plan, the active flag, and the digest of
the given password. -/
theorem register_valid_defaults (now : Nat) (req : RegisterReq) (st : Store)
    (hn : falsy req.name = false) (he : falsy req.email = false)
    (hp : falsy req.password = false)
    (hv : validate_email (pyLower (pyStrip (req.email.getD ""))) = true)
    (hlen : ¬ (req.password.getD "").length < 6)
    (hdup : st.findByEmail (pyLower (pyStrip (req.email.getD ""))) = none) :
    register now req st =
      ⟨201, Body.msgUser "Account created successfully"
          (newUser now req st).to_dict,
        ⟨st.users ++ [newUser now req st], st.nextId + 1⟩⟩
    ∧ (newUser now req st).credits = 100
    ∧ (newUser now req st).plan_type = "free"
    ∧ (newUser now req st).is_active = true
    ∧ (newUser now req st).password_hash =
        generate_password_hash (req.password.getD "") :=
  ⟨register_success_eq now req st hn he hp hv hlen hdup, rfl, rfl, rfl, rfl⟩

/-- Closed instance of `register_valid_defaults` on the empty store. -/
theorem register_valid_defaults_witness :
    register 7 ⟨some "Ann", some "ANN@Test.com", some "secret1"⟩ initialStore =
      ⟨201, Body.msgUser "Account created successfully"
          (newUser 7 ⟨some "Ann", some "ANN@Test.com", some "secret1"⟩
            initialStore).to_dict,
        ⟨initialStore.users ++
            [newUser 7 ⟨some "Ann", some "ANN@Test.com", some "secret1"⟩
              initialStore], initialStore.nextId + 1⟩⟩
    ∧ (newUser 7 ⟨some "Ann", some "ANN@Test.com", some "secret1"⟩
        initialStore).credits = 100 :=
  have h := register_valid_defaults 7
    ⟨some "Ann", some "ANN@Test.com", some "secret1"⟩ initialStore
    (by decide) (by decide) (by decide) (by decide) (by decide) (by decide)
  ⟨h.1, h.2.1⟩

/-- C6: two valid registrations whose emails coincide after trimming and
lowercasing, run in sequence from a store without that email: the first
answers 201, the second answers 409 leaving the store as the first left
it, and exactly one user with that normalized email is stored. -/
theorem register_duplicate_conflict (now1 now2 : Nat)
    (req1 req2 : RegisterReq) (st : Store)
    (hn1 : falsy req1.name = false) (he1 : falsy req1.email = false)
    (hp1 : falsy req1.password = false)
    (hv1 : validate_email (pyLower (pyStrip (req1.email.getD ""))) = true)
    (hlen1 : ¬ (req1.password.getD "").length < 6)
    (hn2 : falsy req2.name = false) (he2 : falsy req2.email = false)
    (hp2 : falsy req2.password = false)
    (hlen2 : ¬ (req2.password.getD "").length < 6)
    (heq : pyLower (pyStrip (req2.email.getD "")) =
      pyLower (pyStrip (req1.email.getD "")))
    (hdup : st.findByEmail (pyLower (pyStrip (req1.email.getD ""))) = none) :
    (register now1 req1 st).status = 201
    ∧ (register now2 req2 (register now1 req1 st).store).status = 409
    ∧ (register now2 req2 (register now1 req1 st).store).store =
        (register now1 req1 st).store
    ∧ (register now1 req1 st).store.users.countP
        (fun u => u.email == pyLower (pyStrip (req1.email.getD ""))) = 1 := by
  have hdup' : st.users.find?
      (fun u => u.email == pyLower (pyStrip (req1.email.getD ""))) = none := hdup
  have h1 := register_success_eq now1 req1 st hn1 he1 hp1 hv1 hlen1 hdup
  have hfind2 : Store.findByEmail
      ⟨st.users ++ [newUser now1 req1 st], st.nextId + 1⟩
      (pyLower (pyStrip (req2.email.getD ""))) = some (newUser now1 req1 st) := by
    rw [heq]
    simp only [Store.findByEmail, List.find?_append, hdup', Option.none_or]
    simp [newUser]
  have hv2 : validate_email (pyLower (pyStrip (req2.email.getD ""))) = true := by
    rw [heq]; exact hv1
  have h2 : register now2 req2 ⟨st.users ++ [newUser now1 req1 st], st.nextId + 1⟩ =
      ⟨409, Body.err "Email already registered",
        ⟨st.users ++ [newUser now1 req1 st], st.nextId + 1⟩⟩ := by
    unfold register
    simp [hn2, he2, hp2, hv2, validate_password, hlen2, hfind2]
  have hcount : (st.users ++ [newUser now1 req1 st]).countP
      (fun u => u.email == pyLower (pyStrip (req1.email.getD ""))) = 1 := by
    rw [List.countP_append]
    have hz : st.users.countP
        (fun u => u.email == pyLower (pyStrip (req1.email.getD ""))) = 0 := by
      refine List.countP_eq_zero.mpr ?_
      intro a ha
      exact List.find?_eq_none.mp hdup' a ha
    rw [hz]
    simp [List.countP_singleton, newUser]
  rw [h1]
  exact ⟨rfl, by rw [h2], by rw [h2], hcount⟩

/-- Closed instance of `register_duplicate_conflict`: registering
`ANN@Test.com` then `ann@test.com` on the empty store. -/
theorem register_duplicate_conflict_witness :
    (register 1 ⟨some "Ann", some "ANN@Test.com", some "secret1"⟩
      initialStore).status = 201
    ∧ (register 2 ⟨some "Bob", some "ann@test.com", some "secret2"⟩
        (register 1 ⟨some "Ann", some "ANN@Test.com", some "secret1"⟩
          initialStore).store).status = 409 :=
  have h := register_duplicate_conflict 1 2
    ⟨some "Ann", some "ANN@Test.com", some "secret1"⟩
    ⟨some "Bob", some "ann@test.com", some "secret2"⟩ initialStore
    (by decide) (by decide) (by decide) (by decide) (by decide)
    (by decide) (by decide) (by decide) (by decide) (by decide) (by decide)
  ⟨h.1, h.2.1⟩

/-- C3 is refuted as stated: on a deactivated account with the correct
password the login response body is `Account is deactivated`, which
differs from the `Invalid email or password` body that a wrong password
(or unknown email) produces; only the 401 status coincides. -/
theorem login_deactivated_distinct_counterexample :
    (login 9 ⟨some "dee@test.com", some "secret1"⟩ deacStore).status = 401
    ∧ (login 9 ⟨some "dee@test.com", some "secret1"⟩ deacStore).body =
        Body.err "Account is deactivated"
    ∧ (login 9 ⟨some "dee@test.com", some "wrongpw"⟩ deacStore).body =
        Body.err "Invalid email or password"
    ∧ (login 9 ⟨some "dee@test.com", some "secret1"⟩ deacStore).body ≠
        (login 9 ⟨some "dee@test.com", some "wrongpw"⟩ deacStore).body := by
  decide

/-- C3 (amended): unknown email and wrong password share one identical
error response (401, `Invalid email or password`); a deactivated account
with the correct password also answers 401 but with the distinct body
`Account is deactivated`. -/
theorem login_error_surface (now : Nat) (req : LoginReq) (st : Store)
    (hne : falsy req.email = false) (hnp : falsy req.password = false) :
    (st.findByEmail (pyLower (pyStrip (req.email.getD ""))) = none →
      login now req st = ⟨401, Body.err "Invalid email or password", st⟩)
    ∧ (∀ u, st.findByEmail (pyLower (pyStrip (req.email.getD ""))) = some u →
        (u.check_password (req.password.getD "") = false →
          login now req st = ⟨401, Body.err "Invalid email or password", st⟩)
        ∧ (u.check_password (req.password.getD "") = true →
            u.is_active = false →
          login now req st = ⟨401, Body.err "Account is deactivated", st⟩)) := by
  constructor
  · intro hfind
    simp [login, hne, hnp, hfind]
  · intro u hfind
    constructor
    · intro hpw
      simp [login, hne, hnp, hfind, hpw]
    · intro hpw hact
      simp [login, hne, hnp, hfind, hpw, hact]

/-- Closed instance of `login_error_surface`: the deactivated-account case
on the demonstration store. -/
theorem login_error_surface_witness :
    login 9 ⟨some "dee@test.com", some "secret1"⟩ deacStore =
      ⟨401, Body.err "Account is deactivated", deacStore⟩ :=
  ((login_error_surface 9 ⟨some "dee@test.com", some "secret1"⟩ deacStore
    (by decide) (by decide)).2 deacUser (by decide)).2 (by decide) (by decide)

/-- C9 is refuted as stated: a name consisting only of whitespace passes
the presence check (Python truthiness of the untrimmed value), so the
registration succeeds and a user is created, instead of failing with the
missing-field error. -/
theorem register_whitespace_name_counterexample :
    (register 0 ⟨some " ", some "ann@test.com", some "secret1"⟩
      initialStore).status = 201
    ∧ (register 0 ⟨some " ", some "ann@test.com", some "secret1"⟩
        initialStore).store.users.length = 1 := by
  decide

/-- C9 (amended): registration rejects with the missing-field error naming
the first field that is absent or the empty string before any trimming;
whitespace-only values pass this presence check. -/
theorem register_presence_check (now : Nat) (req : RegisterReq) (st : Store) :
    (falsy req.name = true →
      register now req st = ⟨400, Body.err "name is required", st⟩)
    ∧ (falsy req.name = false → falsy req.email = true →
      register now req st = ⟨400, Body.err "email is required", st⟩)
    ∧ (falsy req.name = false → falsy req.email = false →
        falsy req.password = true →
      register now req st = ⟨400, Body.err "password is required", st⟩) := by
  refine ⟨fun h1 => ?_, fun h1 h2 => ?_, fun h1 h2 h3 => ?_⟩
  · simp [register, h1]
  · simp [register, h1, h2]
  · simp [register, h1, h2, h3]

/-- Closed instance of `register_presence_check`: a request without a name
field is rejected. -/
theorem register_presence_check_witness :
    register 0 ⟨none, some "ann@test.com", some "secret1"⟩ initialStore =
      ⟨400, Body.err "name is required", initialStore⟩ :=
  (register_presence_check 0 ⟨none, some "ann@test.com", some "secret1"⟩
    initialStore).1 (by decide)

end AccountService
